import Mathlib

/-!
# cppsync: continuation-passing `async` computations

A shallow embedding of `src/c++/cppsync/cppsync/cppsync.cpp`.

An `async<TValue>` of the source is a `std::function` returning `void` that is
handed a context and three callbacks.  Everything such a call does is a side
effect, so a C++ call is embedded as a function from the state of the world
before the call to the way the call ends (it returns, or an exception escapes
it) together with the state of the world after it.  The type of the world is a
parameter: a theorem stated for every world and every triple of callbacks holds
in particular for callbacks that write each call into a log.

The embedding describes one invocation of a freshly constructed computation,
whose captured value and captured binder are the ones given at construction.
-/

namespace cppsync

/-! ## Data model -/

/-- Enumeration `cancel_reason` of the source (lines 13-16): one enumerator. -/
inductive cancel_reason where
  | unknown
  deriving DecidableEq, Repr

/-- Numeric value of each enumerator: `unknown = 0x0001`. -/
def cancel_reason.code : cancel_reason → Nat
  | .unknown => 0x0001

/-- Structure `async_context` of the source (lines 18-21): it has no member. -/
structure async_context where
  deriving DecidableEq, Repr

/-- How a C++ call ends: it returns a result, or an exception escapes it. -/
inductive completion (exception α : Type) where
  | returned (result : α)
  | raised (e : exception)
  deriving DecidableEq, Repr

/-- A C++ call with side effects: from the state of the world before the call
to how the call ends and the state of the world after it.  What was done before
an exception escapes stays done. -/
abbrev effect (World exception α : Type) : Type :=
  World → completion exception α × World

/-- The call that returns `x` and does nothing else. -/
def effect.returns {World exception α : Type} (x : α) : effect World exception α :=
  fun w => (completion.returned x, w)

/-- The call that throws `e` and does nothing else. -/
def effect.raises {World exception α : Type} (e : exception) : effect World exception α :=
  fun w => (completion.raised e, w)

/-- Two statements in sequence, `auto x = m; k (x);`: when an exception escapes
`m` the rest is skipped and the exception escapes the whole. -/
def effect.and_then {World exception α β : Type}
    (m : effect World exception α) (k : α → effect World exception β) :
    effect World exception β :=
  fun w =>
    match m w with
    | (completion.returned x, w1) => k x w1
    | (completion.raised e, w1) => (completion.raised e, w1)

/-- Callback `on_value<TValue> = std::function<void (TValue &&)>` (line 24). -/
abbrev on_value (World exception TValue : Type) : Type :=
  TValue → effect World exception Unit

/-- Callback `on_error = std::function<void (std::exception const &)>` (line 25). -/
abbrev on_error (World exception : Type) : Type :=
  exception → effect World exception Unit

/-- Callback `on_cancelled = std::function<void (cancel_reason)>` (line 26). -/
abbrev on_cancelled (World exception : Type) : Type :=
  cancel_reason → effect World exception Unit

/-- Computation `async<TValue>` (lines 28-33): a `void` function of the context
and the three callbacks. -/
abbrev async (World exception TValue : Type) : Type :=
  async_context → on_value World exception TValue → on_error World exception →
    on_cancelled World exception → effect World exception Unit

/-- Function `binder<TA, TB> = std::function<async<TB> (TA &&)>` (lines 36-37):
a C++ function, so calling it may have effects of its own and may throw. -/
abbrev binder (World exception TA TB : Type) : Type :=
  TA → effect World exception (async World exception TB)

/-- A binder that only computes its result: no effect, no exception. -/
def pure_binder {World exception TA TB : Type} (g : TA → async World exception TB) :
    binder World exception TA TB :=
  fun v => effect.returns (g v)

/-! ## The two combinators -/

/-- Function `async_return` (lines 82-91): the closure calls `ov` with the
captured value and touches neither `ctx`, `oe` nor `oc`. -/
def async_return {World exception TValue : Type} (value : TValue) :
    async World exception TValue :=
  fun _ctx ov _oe _oc => ov value

/-- Function `async_bind` (lines 93-108).

The closure is written with the parameter `on_value<TA> const & ov` (line 98)
while the declared result is the binder's result type `async<TB>`, and the
closure hands that same `ov` to `b`, an `async<TB>` (line 103).  C++ bridges
both gaps by building a `std::function` of the other argument type, which
converts each value it is called with: `a_to_b` where the caller's
`on_value<TB>` becomes the closure's `ov`, `b_to_a` where `ov` becomes the
`on_value<TB>` of `b`.  When `TB` is `TA` nothing is converted and both are
`id`.

Body: `fov` calls the binder on the value and invokes the computation it
returns with `ctx`, `ov`, `oe`, `oc`; then `ia (ctx, fov, oe, oc)`. -/
def async_bind {World exception TA TB : Type} (a_to_b : TA → TB) (b_to_a : TB → TA)
    (a : async World exception TA) (binder : binder World exception TA TB) :
    async World exception TB :=
  fun ctx ov_caller oe oc =>
    let ov : on_value World exception TA := fun x => ov_caller (a_to_b x)
    let fov : on_value World exception TA := fun v =>
      effect.and_then (binder v) (fun b => b ctx (fun y => ov (b_to_a y)) oe oc)
    a ctx fov oe oc

/-! ## Instrumented callbacks -/

/-- One call of one of the three callbacks, with its argument. -/
inductive channel_call (exception TValue : Type) where
  | value (v : TValue)
  | error (e : exception)
  | cancelled (r : cancel_reason)
  deriving DecidableEq, Repr

/-- An `on_value` that appends its call to the log and returns. -/
def record_value {exception TValue : Type} :
    on_value (List (channel_call exception TValue)) exception TValue :=
  fun v w => (completion.returned (), w ++ [channel_call.value v])

/-- An `on_error` that appends its call to the log and returns. -/
def record_error {exception TValue : Type} :
    on_error (List (channel_call exception TValue)) exception :=
  fun e w => (completion.returned (), w ++ [channel_call.error e])

/-- An `on_cancelled` that appends its call to the log and returns. -/
def record_cancelled {exception TValue : Type} :
    on_cancelled (List (channel_call exception TValue)) exception :=
  fun r w => (completion.returned (), w ++ [channel_call.cancelled r])

/-- One invocation of `m` with the three recording callbacks, from an empty
log: how the invocation ends, and the callback calls it made, in order. -/
def invoke_recorded {exception TValue : Type}
    (m : async (List (channel_call exception TValue)) exception TValue)
    (ctx : async_context) :
    completion exception Unit × List (channel_call exception TValue) :=
  m ctx record_value record_error record_cancelled []

/-- Numbers of `(value, error, cancelled)` calls in a log. -/
def counts {exception TValue : Type} :
    List (channel_call exception TValue) → Nat × Nat × Nat
  | [] => (0, 0, 0)
  | channel_call.value _ :: l => ((counts l).1 + 1, (counts l).2.1, (counts l).2.2)
  | channel_call.error _ :: l => ((counts l).1, (counts l).2.1 + 1, (counts l).2.2)
  | channel_call.cancelled _ :: l => ((counts l).1, (counts l).2.1, (counts l).2.2 + 1)

/-! ## Computations that complete once -/

/-- A computation whose invocation fires exactly one callback, exactly once, and
does nothing else.  Which callback, and with which argument, may depend on the
state of the world at the invocation, not on the callbacks it is handed. -/
def fires_once {World exception T : Type} (m : async World exception T) : Prop :=
  ∀ (ctx : async_context) (w : World),
    (∃ v, ∀ ov oe oc, m ctx ov oe oc w = ov v w) ∨
    (∃ e, ∀ ov oe oc, m ctx ov oe oc w = oe e w) ∨
    (∃ r, ∀ ov oe oc, m ctx ov oe oc w = oc r w)

/-- Computations built from `async_return`, `async_bind` and leaves that fire
exactly one callback exactly once, the binders being functions that return such
computations. -/
inductive built {World exception : Type} : {T : Type} → async World exception T → Prop where
  | leaf {T : Type} (m : async World exception T) (h : fires_once m) : built m
  | ret {T : Type} (v : T) : built (async_return v : async World exception T)
  | bind {TA TB : Type} (a_to_b : TA → TB) (b_to_a : TB → TA)
      (a : async World exception TA) (g : TA → async World exception TB)
      (ha : built a) (hg : ∀ v, built (g v)) :
      built (async_bind a_to_b b_to_a a (pure_binder g))

/-- A chain used as a concrete input: `async_return (x)`, then a binder that
returns a leaf firing `on_error ("two")` on the value 2 and `async_return (v)`
otherwise, then a binder that returns `async_return (v * 10)`. -/
def sample_chain (x : Nat) : async (List (channel_call String Nat)) String Nat :=
  async_bind id id
    (async_bind id id (async_return x)
      (pure_binder (fun v => if v = 2 then (fun _ _ oe _ => oe "two") else async_return v)))
    (pure_binder (fun v => async_return (v * 10)))

/-! ## Contract-breaking and contract-keeping left computations -/

/-- A computation whose invocation fires at most one callback, at most once, and
does nothing else: it returns at once, or it is one call of one callback. -/
def fires_at_most_once {World exception T : Type} (m : async World exception T) : Prop :=
  ∀ (ctx : async_context) (w : World),
    (∀ ov oe oc, m ctx ov oe oc w = (completion.returned (), w)) ∨
    (∃ v, ∀ ov oe oc, m ctx ov oe oc w = ov v w) ∨
    (∃ e, ∀ ov oe oc, m ctx ov oe oc w = oe e w) ∨
    (∃ r, ∀ ov oe oc, m ctx ov oe oc w = oc r w)

/-- A left computation that breaks the contract: it calls its value callback
with `v1` and then again with `v2`. -/
def fires_value_twice {World exception T : Type} (v1 v2 : T) : async World exception T :=
  fun _ctx ov _oe _oc => effect.and_then (ov v1) (fun _ => ov v2)

/-- A left computation that breaks the contract: it calls its value callback
with `v` and then its error callback with `e`. -/
def fires_value_then_error {World exception T : Type} (v : T) (e : exception) :
    async World exception T :=
  fun _ctx ov oe _oc => effect.and_then (ov v) (fun _ => oe e)

/-! ## The program `main` -/

/-- Library function `printf`, as far as `main` uses it: the text is appended to
what was written to the standard output so far. -/
def printf {exception : Type} (text : String) : effect String exception Unit :=
  fun out => (completion.returned (), out ++ text)

/-- Function `main` (lines 110-135).  The world is the text on the standard
output; an exception is represented by the text of its `what ()`. -/
def main : effect String String Int :=
  let a : async String String String := async_return "Test"
  let b : async String String String :=
    async_bind id id a (pure_binder (fun a => async_return ("Testing_" ++ a)))
  let ctx : async_context := {}
  let on_string : on_value String String String :=
    fun v => printf ("Value: " ++ v ++ "\n")
  let on_error : on_error String String :=
    fun e => printf ("Exception: " ++ e ++ "\n")
  let on_cancelled : on_cancelled String String :=
    fun cr => printf ("Cancelled: " ++ toString cr.code ++ "\n")
  effect.and_then (b ctx on_string on_error on_cancelled) (fun _ => effect.returns 0)

/-! ## Chains of binds -/

/-- The computation obtained from `m` by applying
`async_bind (., v => async_return (g (v)))` for each `g` of the list in turn. -/
def bind_each {World exception T : Type} (m : async World exception T) :
    List (T → T) → async World exception T
  | [] => m
  | g :: gs =>
      bind_each (async_bind id id m (pure_binder (fun v => async_return (g v)))) gs

/-- The functions of the list applied in turn to `x`. -/
def apply_each {T : Type} (x : T) : List (T → T) → T
  | [] => x
  | g :: gs => apply_each (g x) gs

/-- Computations built only from `async_return` and `async_bind`, the binders
being functions that return such computations. -/
inductive core_built {World exception : Type} :
    {T : Type} → async World exception T → Prop where
  | ret {T : Type} (v : T) : core_built (async_return v : async World exception T)
  | bind {TA TB : Type} (a_to_b : TA → TB) (b_to_a : TB → TA)
      (a : async World exception TA) (g : TA → async World exception TB)
      (ha : core_built a) (hg : ∀ v, core_built (g v)) :
      core_built (async_bind a_to_b b_to_a a (pure_binder g))

/-! ## Instrumentation of the left computation and of the binder -/

/-- What is observed during one invocation of `async_bind (a, f)`: the left
computation calls its value callback, the binder is called, one of the caller's
callbacks is called. -/
inductive trace_event (exception TA TB : Type) where
  | left_value (v : TA)
  | binder_call (v : TA)
  | output (c : channel_call exception TB)
  deriving DecidableEq, Repr

/-- Appends one event to the trace. -/
def note {exception event : Type} (ev : event) : effect (List event) exception Unit :=
  fun w => (completion.returned (), w ++ [ev])

/-- The left computation `a`, with each call it makes of its value callback
written to the trace at the moment of the call. -/
def watch_left {exception TA TB : Type}
    (a : async (List (trace_event exception TA TB)) exception TA) :
    async (List (trace_event exception TA TB)) exception TA :=
  fun ctx ov oe oc =>
    a ctx (fun v => effect.and_then (note (trace_event.left_value v)) (fun _ => ov v)) oe oc

/-- The binder `f`, with each call of it written to the trace on entry. -/
def watch_binder {exception TA TB : Type}
    (f : binder (List (trace_event exception TA TB)) exception TA TB) :
    binder (List (trace_event exception TA TB)) exception TA TB :=
  fun v => effect.and_then (note (trace_event.binder_call v)) (fun _ => f v)

/-- The caller's `on_value`, written to the trace. -/
def output_value {exception TA TB : Type} :
    on_value (List (trace_event exception TA TB)) exception TB :=
  fun v => note (trace_event.output (channel_call.value v))

/-- The caller's `on_error`, written to the trace. -/
def output_error {exception TA TB : Type} :
    on_error (List (trace_event exception TA TB)) exception :=
  fun e => note (trace_event.output (channel_call.error e))

/-- The caller's `on_cancelled`, written to the trace. -/
def output_cancelled {exception TA TB : Type} :
    on_cancelled (List (trace_event exception TA TB)) exception :=
  fun r => note (trace_event.output (channel_call.cancelled r))

/-- One invocation of `async_bind (a, f)` with everything observed, from an
empty trace. -/
def invoke_traced {exception TA TB : Type} (a_to_b : TA → TB) (b_to_a : TB → TA)
    (a : async (List (trace_event exception TA TB)) exception TA)
    (f : binder (List (trace_event exception TA TB)) exception TA TB)
    (ctx : async_context) :
    completion exception Unit × List (trace_event exception TA TB) :=
  async_bind a_to_b b_to_a (watch_left a) (watch_binder f) ctx
    output_value output_error output_cancelled []

/-! ## Computation objects and their captured state

The closures of `async_return` and `async_bind` are declared `mutable` and hand
on what they captured with `std::move`, so an invocation may leave the object
changed.  Here the captured state is explicit and an invocation returns the
state the object is left in. -/

/-- Captured state of a computation object of one value type: the closure of
`async_return` holds `iv`; the closure of `async_bind` holds `ia` and `ibinder`.
The captured binder is a function object: `captures` is what it captured
(`Unit` for a binder without captures, as the one of `main`), `ibinder` is what
calling it computes from its captures and its argument, and `by_value` tells
whether it takes its parameter by value, as `[] (auto a)` of `main` does, and
so moves from the argument it is called with. -/
inductive async_object (TValue TCapture : Type) where
  | return_closure (iv : TValue)
  | bind_closure (ia : async_object TValue TCapture) (captures : TCapture)
      (ibinder : TCapture → TValue → async_object TValue TCapture) (by_value : Bool)

/-- A callback that takes `TValue &&`: what the call does, and the state in
which it leaves the object its parameter refers to. -/
abbrev rvalue_on_value (World exception TValue : Type) : Type :=
  TValue → World → (completion exception Unit × World) × TValue

/-- One invocation of a computation object: what the invocation does, and the
state the object is left in.  `moved_from v` is the state in which the move
constructor of the value type leaves a source that held `v`, and
`moved_from_captures c` the state in which moving a binder leaves a source that
had captured `c`.

`return_closure`: `ov (std::move (iv))` (line 89) hands `ov` a reference to the
captured `iv`, which is left as `ov` leaves it.

`bind_closure`: `iibinder = std::move (ibinder)` (line 100) moves the captured
binder into `fov`, so `fov` calls the binder with the captures it had and the
object keeps a moved-from binder.  `fov` (lines 100-104) calls the binder with
`std::move (v)`, which leaves `v` moved from when the binder takes its parameter
by value, and invokes the computation `b` it returned, a local object; then
`ia (ctx, fov, oe, oc)` (line 106) invokes the captured `ia` in place. -/
def invoke_object {World exception TValue TCapture : Type}
    (moved_from : TValue → TValue) (moved_from_captures : TCapture → TCapture) :
    async_object TValue TCapture → async_context → rvalue_on_value World exception TValue →
      on_error World exception → on_cancelled World exception → World →
      (completion exception Unit × World) × async_object TValue TCapture
  | async_object.return_closure iv, _ctx, ov, _oe, _oc, w =>
      ((ov iv w).1, async_object.return_closure (ov iv w).2)
  | async_object.bind_closure ia captures ibinder by_value, ctx, ov, oe, oc, w =>
      ((invoke_object moved_from moved_from_captures ia ctx
          (fun v w1 =>
            ((invoke_object moved_from moved_from_captures (ibinder captures v)
                ctx ov oe oc w1).1,
              if by_value then moved_from v else v))
          oe oc w).1,
        async_object.bind_closure
          (invoke_object moved_from moved_from_captures ia ctx
            (fun v w1 =>
              ((invoke_object moved_from moved_from_captures (ibinder captures v)
                  ctx ov oe oc w1).1,
                if by_value then moved_from v else v))
            oe oc w).2
          (moved_from_captures captures) ibinder by_value)

/-- The computation an object stands for at its construction, in terms of
`async_return` and `async_bind`. -/
def async_object.to_async {World exception TValue TCapture : Type} :
    async_object TValue TCapture → async World exception TValue
  | async_object.return_closure iv => async_return iv
  | async_object.bind_closure ia captures ibinder _ =>
      async_bind id id ia.to_async (pure_binder (fun v => (ibinder captures v).to_async))

theorem and_then_returns {World exception α β : Type} (x : α)
    (k : α → effect World exception β) :
    effect.and_then (effect.returns x) k = k x := by
  funext w
  rfl

theorem and_then_raises {World exception α β : Type} (e : exception)
    (k : α → effect World exception β) :
    effect.and_then (effect.raises e : effect World exception α) k = effect.raises e := by
  funext w
  rfl

theorem and_then_assoc {World exception α β γ : Type} (m : effect World exception α)
    (k : α → effect World exception β) (h : β → effect World exception γ) :
    effect.and_then (effect.and_then m k) h
      = effect.and_then m (fun x => effect.and_then (k x) h) := by
  funext w
  unfold effect.and_then
  rcases hm : m w with ⟨c, w1⟩
  cases c <;> simp

/-- Unfolding of one invocation of `async_bind`, conversions included. -/
theorem async_bind_apply {World exception TA TB : Type} (a_to_b : TA → TB) (b_to_a : TB → TA)
    (a : async World exception TA) (f : binder World exception TA TB)
    (ctx : async_context) (ov : on_value World exception TB)
    (oe : on_error World exception) (oc : on_cancelled World exception) :
    async_bind a_to_b b_to_a a f ctx ov oe oc
      = a ctx (fun v => effect.and_then (f v)
          (fun b => b ctx (fun y => ov (a_to_b (b_to_a y))) oe oc)) oe oc :=
  rfl

/-- One invocation of `async_bind` with a binder that only computes. -/
theorem async_bind_pure_apply {World exception TA TB : Type} (a_to_b : TA → TB)
    (b_to_a : TB → TA) (a : async World exception TA) (g : TA → async World exception TB)
    (ctx : async_context) (ov : on_value World exception TB)
    (oe : on_error World exception) (oc : on_cancelled World exception) :
    async_bind a_to_b b_to_a a (pure_binder g) ctx ov oe oc
      = a ctx (fun v => g v ctx (fun y => ov (a_to_b (b_to_a y))) oe oc) oe oc := by
  rw [async_bind_apply]
  simp only [pure_binder, and_then_returns]

/-- Completing once is preserved by `async_bind` with a binder that only
computes and returns computations that complete once. -/
theorem fires_once_bind {World exception TA TB : Type} (a_to_b : TA → TB) (b_to_a : TB → TA)
    (a : async World exception TA) (g : TA → async World exception TB)
    (ha : fires_once a) (hg : ∀ v, fires_once (g v)) :
    fires_once (async_bind a_to_b b_to_a a (pure_binder g)) := by
  intro ctx w
  rcases ha ctx w with ⟨v, hv⟩ | ⟨e, he⟩ | ⟨r, hr⟩
  · rcases hg v ctx w with ⟨v2, h2⟩ | ⟨e, he⟩ | ⟨r, hr⟩
    · refine Or.inl ⟨a_to_b (b_to_a v2), fun ov oe oc => ?_⟩
      rw [async_bind_pure_apply, hv]
      exact h2 _ oe oc
    · refine Or.inr (Or.inl ⟨e, fun ov oe oc => ?_⟩)
      rw [async_bind_pure_apply, hv]
      exact he _ oe oc
    · refine Or.inr (Or.inr ⟨r, fun ov oe oc => ?_⟩)
      rw [async_bind_pure_apply, hv]
      exact hr _ oe oc
  · refine Or.inr (Or.inl ⟨e, fun ov oe oc => ?_⟩)
    rw [async_bind_pure_apply]
    exact he _ oe oc
  · refine Or.inr (Or.inr ⟨r, fun ov oe oc => ?_⟩)
    rw [async_bind_pure_apply]
    exact hr _ oe oc

theorem fires_once_return {World exception T : Type} (v : T) :
    fires_once (async_return v : async World exception T) :=
  fun _ _ => Or.inl ⟨v, fun _ _ _ => rfl⟩

/-- Every built computation completes once. -/
theorem built_fires_once {World exception T : Type} (m : async World exception T)
    (h : built m) : fires_once m := by
  induction h with
  | leaf m h => exact h
  | ret v => exact fires_once_return v
  | bind a_to_b b_to_a a g _ _ iha ihg => exact fires_once_bind a_to_b b_to_a a g iha ihg

/-! ## Invocation of the two combinators -/

/-- Unfolding of one invocation of `async_bind (a, f)`: `a` is invoked with
`ctx`, with the value callback that on `v` calls `f (v)` and invokes the
computation it returns, and with `oe` and `oc`.  That computation is handed `ov`
behind the conversion of values from `TB` to `TA` and back, and `ov` itself
whenever that round trip loses nothing, as when `TB` is `TA`. -/
theorem async_bind_invocation {World exception TA TB : Type}
    (a_to_b : TA → TB) (b_to_a : TB → TA)
    (a : async World exception TA) (f : binder World exception TA TB)
    (ctx : async_context) (ov : on_value World exception TB)
    (oe : on_error World exception) (oc : on_cancelled World exception) :
    async_bind a_to_b b_to_a a f ctx ov oe oc
      = a ctx (fun v => effect.and_then (f v)
          (fun b => b ctx (fun y => ov (a_to_b (b_to_a y))) oe oc)) oe oc ∧
    ((∀ y, a_to_b (b_to_a y) = y) →
      async_bind a_to_b b_to_a a f ctx ov oe oc
        = a ctx (fun v => effect.and_then (f v) (fun b => b ctx ov oe oc)) oe oc) := by
  refine ⟨rfl, fun lossless => ?_⟩
  rw [async_bind_apply]
  simp only [lossless]

theorem async_bind_invocation_witness :
    (∀ y : Nat, Int.toNat (Int.ofNat y) = y) ∧
    invoke_recorded
        (async_bind Int.toNat Int.ofNat (async_return (-3 : Int))
          (pure_binder (fun v => async_return (Int.natAbs v + 4))) :
          async (List (channel_call String Nat)) String Nat) {}
      = (completion.returned (), [channel_call.value 7]) :=
  ⟨fun _ => rfl, by
    unfold invoke_recorded
    rw [(async_bind_invocation Int.toNat Int.ofNat _ _ _ _ _ _).2 (fun _ => rfl)]
    rfl⟩

/-- C2: invoking `async_return (v)` is one call of `on_value` with `v`, made
before the invocation returns, whatever the context and the callbacks; with
recording callbacks the log is that single call, and neither `on_error` nor
`on_cancelled` occurs in it. -/
theorem async_return_invocation {World exception TValue : Type} (v : TValue) :
    (∀ (ctx : async_context) (ov : on_value World exception TValue)
        (oe : on_error World exception) (oc : on_cancelled World exception),
        async_return v ctx ov oe oc = ov v) ∧
    (∀ ctx : async_context,
        invoke_recorded (async_return v : async _ exception TValue) ctx
          = (completion.returned (), [channel_call.value v])) :=
  ⟨fun _ _ _ _ => rfl, fun _ => rfl⟩

/-! ## The three laws -/

/-- Left identity where the conversion from `TB` to `TA` and back loses
nothing, as when `TB` is `TA`: for a binder `g` that only computes,
`async_bind (async_return (x), g)` and `g (x)` make the same callback calls. -/
theorem left_identity {World exception TA TB : Type}
    (a_to_b : TA → TB) (b_to_a : TB → TA) (lossless : ∀ y, a_to_b (b_to_a y) = y)
    (x : TA) (g : TA → async World exception TB)
    (ctx : async_context) (ov : on_value World exception TB)
    (oe : on_error World exception) (oc : on_cancelled World exception) :
    async_bind a_to_b b_to_a (async_return x) (pure_binder g) ctx ov oe oc
      = g x ctx ov oe oc := by
  rw [async_bind_pure_apply]
  simp only [lossless]
  rfl

theorem left_identity_witness :
    (∀ y : Nat, id (id y) = y) ∧
    invoke_recorded
        (async_bind id id (async_return 2) (pure_binder (fun v => async_return (v * 10))) :
          async (List (channel_call String Nat)) String Nat) {}
      = invoke_recorded (async_return (2 * 10)) {} :=
  ⟨fun _ => rfl, by
    unfold invoke_recorded
    rw [left_identity id id (fun _ => rfl)]⟩

/-- C4, right identity: `async_bind (m, async_return)` and `m` make the same
callback calls for every context and every triple of callbacks. -/
theorem right_identity {World exception T : Type} (m : async World exception T)
    (ctx : async_context) (ov : on_value World exception T)
    (oe : on_error World exception) (oc : on_cancelled World exception) :
    async_bind id id m (pure_binder async_return) ctx ov oe oc = m ctx ov oe oc := by
  rw [async_bind_pure_apply]
  rfl

/-- Associativity where the conversions from `TB` and from `TC` to `TA` and
back lose nothing, as when the three types are one:
`async_bind (async_bind (m, f), g)` and
`async_bind (m, x => async_bind (f (x), g))` make the same callback calls. -/
theorem associativity {World exception TA TB TC : Type}
    (a_to_b : TA → TB) (b_to_a : TB → TA) (b_to_c : TB → TC) (c_to_b : TC → TB)
    (a_to_c : TA → TC) (c_to_a : TC → TA)
    (lossless_b : ∀ y, a_to_b (b_to_a y) = y) (lossless_c : ∀ z, a_to_c (c_to_a z) = z)
    (m : async World exception TA) (f : binder World exception TA TB)
    (g : binder World exception TB TC)
    (ctx : async_context) (ov : on_value World exception TC)
    (oe : on_error World exception) (oc : on_cancelled World exception) :
    async_bind b_to_c c_to_b (async_bind a_to_b b_to_a m f) g ctx ov oe oc
      = async_bind a_to_c c_to_a m
          (fun x => effect.and_then (f x)
            (fun b => effect.returns (async_bind b_to_c c_to_b b g))) ctx ov oe oc := by
  simp only [async_bind_apply, and_then_assoc, and_then_returns, lossless_b, lossless_c]

theorem associativity_witness :
    (∀ y : Nat, id (id y) = y) ∧ (∀ z : Nat, id (id z) = z) ∧
    invoke_recorded
        (async_bind id id
          (async_bind id id (async_return 1) (pure_binder (fun v => async_return (v + 2))))
          (pure_binder (fun v => async_return (v * 5))) :
          async (List (channel_call String Nat)) String Nat) {}
      = (completion.returned (), [channel_call.value 15]) ∧
    invoke_recorded
        (async_bind id id (async_return 1)
          (fun x => effect.and_then (pure_binder (fun v => async_return (v + 2)) x)
            (fun b => effect.returns
              (async_bind id id b (pure_binder (fun v => async_return (v * 5)))))) :
          async (List (channel_call String Nat)) String Nat) {}
      = (completion.returned (), [channel_call.value 15]) :=
  ⟨fun _ => rfl, fun _ => rfl, rfl, by
    unfold invoke_recorded
    rw [← associativity id id id id id id (fun _ => rfl) (fun _ => rfl)]
    rfl⟩

/-! ## Failure and cancellation of the left computation -/

/-- C6, error short-circuit: when invoking `a` is one call of `on_error` with
`e` and nothing else, invoking `async_bind (a, f)` is one call of the caller's
`on_error` with `e` and nothing else, for every binder `f` (whatever calling it
would do, it is not called) and whatever `on_value` and `on_cancelled` are. -/
theorem error_short_circuit {World exception TA TB : Type}
    (a_to_b : TA → TB) (b_to_a : TB → TA) (e : exception)
    (a : async World exception TA)
    (ha : ∀ ctx ov oe oc, a ctx ov oe oc = oe e)
    (f : binder World exception TA TB)
    (ctx : async_context) (ov : on_value World exception TB)
    (oe : on_error World exception) (oc : on_cancelled World exception) :
    async_bind a_to_b b_to_a a f ctx ov oe oc = oe e := by
  rw [async_bind_apply, ha]

theorem error_short_circuit_witness :
    (∀ (ctx : async_context) (ov : on_value (List (channel_call String Nat)) String Nat)
        (oe : on_error (List (channel_call String Nat)) String)
        (oc : on_cancelled (List (channel_call String Nat)) String),
        (fun _ _ oe _ => oe "boom" : async (List (channel_call String Nat)) String Nat)
          ctx ov oe oc = oe "boom") ∧
    invoke_recorded
        (async_bind id id (fun _ _ oe _ => oe "boom") (pure_binder (fun x => async_return x)) :
          async (List (channel_call String Nat)) String Nat) {}
      = (completion.returned (), [channel_call.error "boom"]) :=
  ⟨fun _ _ _ _ => rfl, by
    unfold invoke_recorded
    rw [error_short_circuit id id "boom" _ (fun _ _ _ _ => rfl)]
    rfl⟩

/-- C7, cancellation forwarded from the left: when invoking `a` is one call of
`on_cancelled` with `r` and nothing else, invoking `async_bind (a, f)` is one
call of the caller's `on_cancelled` with `r` and nothing else, for every binder
`f` (it is not called) and whatever `on_value` and `on_error` are. -/
theorem cancellation_forwarded {World exception TA TB : Type}
    (a_to_b : TA → TB) (b_to_a : TB → TA) (r : cancel_reason)
    (a : async World exception TA)
    (ha : ∀ ctx ov oe oc, a ctx ov oe oc = oc r)
    (f : binder World exception TA TB)
    (ctx : async_context) (ov : on_value World exception TB)
    (oe : on_error World exception) (oc : on_cancelled World exception) :
    async_bind a_to_b b_to_a a f ctx ov oe oc = oc r := by
  rw [async_bind_apply, ha]

theorem cancellation_forwarded_witness :
    (∀ (ctx : async_context) (ov : on_value (List (channel_call String Nat)) String Nat)
        (oe : on_error (List (channel_call String Nat)) String)
        (oc : on_cancelled (List (channel_call String Nat)) String),
        (fun _ _ _ oc => oc cancel_reason.unknown :
          async (List (channel_call String Nat)) String Nat) ctx ov oe oc
          = oc cancel_reason.unknown) ∧
    invoke_recorded
        (async_bind id id (fun _ _ _ oc => oc cancel_reason.unknown)
          (fun _ => effect.raises "binder was called") :
          async (List (channel_call String Nat)) String Nat) {}
      = (completion.returned (), [channel_call.cancelled cancel_reason.unknown]) :=
  ⟨fun _ _ _ _ => rfl, by
    unfold invoke_recorded
    rw [cancellation_forwarded id id cancel_reason.unknown _ (fun _ _ _ _ => rfl)]
    rfl⟩

/-! ## Cancellation signal and failing binders -/

/-- C9 fails on the code: with `a = async_return (1)` and a binder that throws
`"boom"`, the invocation of `async_bind (a, f)` ends with `"boom"` escaping and
no callback called, not with one `on_error ("boom")` call. -/
theorem binder_failure_not_contained :
    invoke_recorded
        (async_bind id id (async_return 1) (fun _ => effect.raises "boom") :
          async (List (channel_call String Nat)) String Nat) {}
      = (completion.raised "boom", []) ∧
    invoke_recorded
        (async_bind id id (async_return 1) (fun _ => effect.raises "boom") :
          async (List (channel_call String Nat)) String Nat) {}
      ≠ (completion.returned (), [channel_call.error "boom"]) := by
  refine ⟨rfl, ?_⟩
  have hcode : invoke_recorded
      (async_bind id id (async_return 1) (fun _ => effect.raises "boom") :
        async (List (channel_call String Nat)) String Nat) {}
      = (completion.raised "boom", []) := rfl
  rw [hcode]
  simp

/-- C9 as the code has it: when invoking `a` is one call of `on_value` with `v`
and nothing else, and `f (v)` throws `x`, the invocation of `async_bind (a, f)`
calls none of the caller's callbacks, leaves the world as it was, and `x`
escapes to the caller of the invocation. -/
theorem binder_failure_escapes {World exception TA TB : Type}
    (a_to_b : TA → TB) (b_to_a : TB → TA) (v : TA)
    (a : async World exception TA)
    (ha : ∀ ctx ov oe oc, a ctx ov oe oc = ov v)
    (x : exception) (f : binder World exception TA TB) (hf : f v = effect.raises x)
    (ctx : async_context) (ov : on_value World exception TB)
    (oe : on_error World exception) (oc : on_cancelled World exception) (w : World) :
    async_bind a_to_b b_to_a a f ctx ov oe oc w = (completion.raised x, w) := by
  rw [async_bind_apply, ha, hf, and_then_raises]
  rfl

theorem binder_failure_escapes_witness :
    (∀ (ctx : async_context) (ov : on_value (List (channel_call String Nat)) String Nat)
        (oe : on_error (List (channel_call String Nat)) String)
        (oc : on_cancelled (List (channel_call String Nat)) String),
        (async_return 1 : async (List (channel_call String Nat)) String Nat) ctx ov oe oc
          = ov 1) ∧
    ((fun _ => effect.raises "boom" : binder (List (channel_call String Nat)) String Nat Nat) 1
        = effect.raises "boom") ∧
    invoke_recorded
        (async_bind id id (async_return 1) (fun _ => effect.raises "boom") :
          async (List (channel_call String Nat)) String Nat) {}
      = (completion.raised "boom", []) :=
  ⟨fun _ _ _ _ => rfl, rfl,
    binder_failure_escapes id id 1 (async_return 1) (fun _ _ _ _ => rfl) "boom"
      (fun _ => effect.raises "boom") rfl {} record_value record_error record_cancelled []⟩

/-! ## Single outcome -/

/-- C10, single outcome: one invocation of a computation built from
`async_return`, `async_bind` and leaves that fire exactly one callback exactly
once (binders returning such computations) returns after exactly one callback
call: the log holds one call, and the numbers of value, error and cancelled
calls are `(1,0,0)`, `(0,1,0)` or `(0,0,1)`. -/
theorem single_outcome {exception T : Type}
    (m : async (List (channel_call exception T)) exception T) (h : built m)
    (ctx : async_context) :
    (∃ c, invoke_recorded m ctx = (completion.returned (), [c])) ∧
    (counts (invoke_recorded m ctx).2 = (1, 0, 0) ∨
      counts (invoke_recorded m ctx).2 = (0, 1, 0) ∨
      counts (invoke_recorded m ctx).2 = (0, 0, 1)) := by
  unfold invoke_recorded
  rcases built_fires_once m h ctx [] with ⟨v, hv⟩ | ⟨e, he⟩ | ⟨r, hr⟩
  · rw [hv]
    exact ⟨⟨channel_call.value v, rfl⟩, Or.inl rfl⟩
  · rw [he]
    exact ⟨⟨channel_call.error e, rfl⟩, Or.inr (Or.inl rfl)⟩
  · rw [hr]
    exact ⟨⟨channel_call.cancelled r, rfl⟩, Or.inr (Or.inr rfl)⟩

theorem single_outcome_witness :
    built (sample_chain 2) ∧
    (∃ c, invoke_recorded (sample_chain 2) {} = (completion.returned (), [c])) ∧
    (counts (invoke_recorded (sample_chain 2) {}).2 = (1, 0, 0) ∨
      counts (invoke_recorded (sample_chain 2) {}).2 = (0, 1, 0) ∨
      counts (invoke_recorded (sample_chain 2) {}).2 = (0, 0, 1)) := by
  have hb : built (sample_chain 2) := by
    refine built.bind _ _ _ _ (built.bind _ _ _ _ (built.ret 2) ?_) (fun v => built.ret _)
    intro v
    by_cases hv : v = 2
    · rw [if_pos hv]
      exact built.leaf _ (fun _ _ => Or.inr (Or.inl ⟨"two", fun _ _ _ => rfl⟩))
    · rw [if_neg hv]
      exact built.ret v
  exact ⟨hb, single_outcome (sample_chain 2) hb {}⟩

/-! ## Absence of a guard -/

/-- Firing at most once is preserved by `async_bind` with a binder that only
computes and returns computations that fire at most once. -/
theorem fires_at_most_once_bind {World exception TA TB : Type}
    (a_to_b : TA → TB) (b_to_a : TB → TA)
    (a : async World exception TA) (g : TA → async World exception TB)
    (ha : fires_at_most_once a) (hg : ∀ v, fires_at_most_once (g v)) :
    fires_at_most_once (async_bind a_to_b b_to_a a (pure_binder g)) := by
  intro ctx w
  rcases ha ctx w with h0 | ⟨v, hv⟩ | ⟨e, he⟩ | ⟨r, hr⟩
  · refine Or.inl (fun ov oe oc => ?_)
    rw [async_bind_pure_apply]
    exact h0 _ oe oc
  · rcases hg v ctx w with h0 | ⟨v2, h2⟩ | ⟨e, he⟩ | ⟨r, hr⟩
    · refine Or.inl (fun ov oe oc => ?_)
      rw [async_bind_pure_apply, hv]
      exact h0 _ oe oc
    · refine Or.inr (Or.inl ⟨a_to_b (b_to_a v2), fun ov oe oc => ?_⟩)
      rw [async_bind_pure_apply, hv]
      exact h2 _ oe oc
    · refine Or.inr (Or.inr (Or.inl ⟨e, fun ov oe oc => ?_⟩))
      rw [async_bind_pure_apply, hv]
      exact he _ oe oc
    · refine Or.inr (Or.inr (Or.inr ⟨r, fun ov oe oc => ?_⟩))
      rw [async_bind_pure_apply, hv]
      exact hr _ oe oc
  · refine Or.inr (Or.inr (Or.inl ⟨e, fun ov oe oc => ?_⟩))
    rw [async_bind_pure_apply]
    exact he _ oe oc
  · refine Or.inr (Or.inr (Or.inr ⟨r, fun ov oe oc => ?_⟩))
    rw [async_bind_pure_apply]
    exact hr _ oe oc

/-- C11 fails on the code: with a left computation that fires its value
callback twice, one invocation of `async_bind (a, f)` calls the caller's
`on_value` twice; with one that fires a value and then an error, it calls the
caller's `on_value` and then the caller's `on_error`. -/
theorem single_fire_guard_absent :
    invoke_recorded
        (async_bind id id (fires_value_twice 1 2)
          (pure_binder (fun v => async_return (v * 10))) :
          async (List (channel_call String Nat)) String Nat) {}
      = (completion.returned (), [channel_call.value 10, channel_call.value 20]) ∧
    invoke_recorded
        (async_bind id id (fires_value_then_error 1 "late")
          (pure_binder (fun v => async_return (v * 10))) :
          async (List (channel_call String Nat)) String Nat) {}
      = (completion.returned (), [channel_call.value 10, channel_call.error "late"]) ∧
    ¬ (invoke_recorded
        (async_bind id id (fires_value_twice 1 2)
          (pure_binder (fun v => async_return (v * 10))) :
          async (List (channel_call String Nat)) String Nat) {}).2.length ≤ 1 := by
  refine ⟨rfl, rfl, ?_⟩
  decide

/-- C11 as the code has it: `async_bind` adds no guard and relays what it is
given, so one invocation of `async_bind (a, f)` calls at most one of the
caller's three callbacks, at most once, when the left computation fires at most
one callback at most once and so does every computation the binder returns. -/
theorem at_most_one_call_relayed {exception TA TB : Type}
    (a_to_b : TA → TB) (b_to_a : TB → TA)
    (a : async (List (channel_call exception TB)) exception TA)
    (g : TA → async (List (channel_call exception TB)) exception TB)
    (ha : fires_at_most_once a) (hg : ∀ v, fires_at_most_once (g v))
    (ctx : async_context) :
    (invoke_recorded (async_bind a_to_b b_to_a a (pure_binder g)) ctx).1
        = completion.returned () ∧
    (invoke_recorded (async_bind a_to_b b_to_a a (pure_binder g)) ctx).2.length ≤ 1 := by
  unfold invoke_recorded
  rcases fires_at_most_once_bind a_to_b b_to_a a g ha hg ctx [] with
    h0 | ⟨v, hv⟩ | ⟨e, he⟩ | ⟨r, hr⟩
  · rw [h0]
    exact ⟨rfl, Nat.zero_le 1⟩
  · rw [hv]
    exact ⟨rfl, Nat.le_refl 1⟩
  · rw [he]
    exact ⟨rfl, Nat.le_refl 1⟩
  · rw [hr]
    exact ⟨rfl, Nat.le_refl 1⟩

theorem at_most_one_call_relayed_witness :
    fires_at_most_once
        (async_return 1 : async (List (channel_call String Nat)) String Nat) ∧
    (∀ v : Nat, fires_at_most_once
        (if v = 1 then async_return (v * 10) else (fun _ _ oe _ => oe "odd") :
          async (List (channel_call String Nat)) String Nat)) ∧
    invoke_recorded
        (async_bind id id (async_return 1)
          (pure_binder
            (fun v => if v = 1 then async_return (v * 10) else (fun _ _ oe _ => oe "odd"))) :
          async (List (channel_call String Nat)) String Nat) {}
      = (completion.returned (), [channel_call.value 10]) ∧
    (invoke_recorded
        (async_bind id id (async_return 1)
          (pure_binder
            (fun v => if v = 1 then async_return (v * 10) else (fun _ _ oe _ => oe "odd"))) :
          async (List (channel_call String Nat)) String Nat) {}).2.length ≤ 1 := by
  have ha : fires_at_most_once
      (async_return 1 : async (List (channel_call String Nat)) String Nat) :=
    fun _ _ => Or.inr (Or.inl ⟨1, fun _ _ _ => rfl⟩)
  have hg : ∀ v : Nat, fires_at_most_once
      (if v = 1 then async_return (v * 10) else (fun _ _ oe _ => oe "odd") :
        async (List (channel_call String Nat)) String Nat) := by
    intro v ctx w
    by_cases hv : v = 1
    · rw [if_pos hv]
      exact Or.inr (Or.inl ⟨v * 10, fun _ _ _ => rfl⟩)
    · rw [if_neg hv]
      exact Or.inr (Or.inr (Or.inl ⟨"odd", fun _ _ _ => rfl⟩))
  exact ⟨ha, hg, rfl,
    (at_most_one_call_relayed id id (async_return 1)
      (fun v => if v = 1 then async_return (v * 10) else (fun _ _ oe _ => oe "odd"))
      ha hg {}).2⟩

/-! ## Mapping a value -/

/-- Where the conversion from `TB` to `TA` and back loses nothing, as when `TB`
is `TA`, invoking `async_bind (async_return (x), v => async_return (g (v)))` is
one call of `on_value` with `g (x)`; so it is for the two computations of the
spec's scenario and of `main`. -/
theorem bind_return_maps {World exception TA TB : Type}
    (a_to_b : TA → TB) (b_to_a : TB → TA) (lossless : ∀ y, a_to_b (b_to_a y) = y)
    (x : TA) (g : TA → TB) :
    (∀ (ctx : async_context) (ov : on_value World exception TB)
        (oe : on_error World exception) (oc : on_cancelled World exception),
        async_bind a_to_b b_to_a (async_return x)
            (pure_binder (fun v => async_return (g v))) ctx ov oe oc
          = ov (g x)) ∧
    (∀ ctx : async_context,
        invoke_recorded
            (async_bind a_to_b b_to_a (async_return x)
              (pure_binder (fun v => async_return (g v))) : async _ exception TB) ctx
          = (completion.returned (), [channel_call.value (g x)])) := by
  refine ⟨fun ctx ov oe oc => ?_, fun ctx => ?_⟩
  · rw [async_bind_pure_apply]
    show ov (a_to_b (b_to_a (g x))) = ov (g x)
    rw [lossless]
  · unfold invoke_recorded
    rw [async_bind_pure_apply]
    show record_value (a_to_b (b_to_a (g x))) [] = _
    rw [lossless]
    rfl

theorem bind_return_maps_witness :
    (∀ y : Nat, id (id y) = y) ∧
    invoke_recorded
        (async_bind id id (async_return 2) (pure_binder (fun v => async_return (v * 10))) :
          async (List (channel_call String Nat)) String Nat) {}
      = (completion.returned (), [channel_call.value 20]) ∧
    invoke_recorded
        (async_bind id id (async_return "Test")
          (pure_binder (fun a => async_return ("Testing_" ++ a))) :
          async (List (channel_call String String)) String String) {}
      = (completion.returned (), [channel_call.value "Testing_Test"]) ∧
    main "" = (completion.returned 0, "Value: Testing_Test\n") :=
  ⟨fun _ => rfl,
    (@bind_return_maps (List (channel_call String Nat)) String Nat Nat id id
      (fun _ => rfl) 2 (fun v => v * 10)).2 {},
    (@bind_return_maps (List (channel_call String String)) String String String id id
      (fun _ => rfl) "Test" (fun a => "Testing_" ++ a)).2 {},
    by decide⟩

/-! ## Number and place of the binder calls -/

/-- C13: let the left computation `a` fire exactly one callback exactly once.
If it fires `on_value` with `v`, one invocation of `async_bind (a, f)` starts
with that call, then the call of `f` on `v`, and goes on with what `f (v)` and
the computation it returns do, the caller's callbacks being called only from
there: with a binder that only computes and returns a computation firing once,
the whole sequence is the value call of `a`, one call of `f`, one call of a
caller's callback.  If `a` fires `on_error` or `on_cancelled`, the sequence is
that one call relayed to the caller and `f` is called zero times. -/
theorem binder_called_once_in_order {exception TA TB : Type}
    (a_to_b : TA → TB) (b_to_a : TB → TA)
    (a : async (List (trace_event exception TA TB)) exception TA) (ha : fires_once a)
    (f : binder (List (trace_event exception TA TB)) exception TA TB)
    (ctx : async_context) :
    (∃ v, (∀ ov oe oc, a ctx ov oe oc [] = ov v []) ∧
      invoke_traced a_to_b b_to_a a f ctx
        = effect.and_then (f v)
            (fun b => b ctx (fun y => output_value (a_to_b (b_to_a y)))
              output_error output_cancelled)
            [trace_event.left_value v, trace_event.binder_call v] ∧
      (∀ g, f = pure_binder g → fires_once (g v) →
        ∃ c, invoke_traced a_to_b b_to_a a f ctx
          = (completion.returned (),
              [trace_event.left_value v, trace_event.binder_call v, trace_event.output c]))) ∨
    (∃ e, (∀ ov oe oc, a ctx ov oe oc [] = oe e []) ∧
      invoke_traced a_to_b b_to_a a f ctx
        = (completion.returned (), [trace_event.output (channel_call.error e)])) ∨
    (∃ r, (∀ ov oe oc, a ctx ov oe oc [] = oc r []) ∧
      invoke_traced a_to_b b_to_a a f ctx
        = (completion.returned (), [trace_event.output (channel_call.cancelled r)])) := by
  have hrun : invoke_traced a_to_b b_to_a a f ctx
      = a ctx (fun v => effect.and_then (note (trace_event.left_value v))
          (fun _ => effect.and_then (watch_binder f v)
            (fun b => b ctx (fun y => output_value (a_to_b (b_to_a y)))
              output_error output_cancelled))) output_error output_cancelled [] := rfl
  rcases ha ctx [] with ⟨v, hv⟩ | ⟨e, he⟩ | ⟨r, hr⟩
  · have hstart : invoke_traced a_to_b b_to_a a f ctx
        = effect.and_then (f v)
            (fun b => b ctx (fun y => output_value (a_to_b (b_to_a y)))
              output_error output_cancelled)
            [trace_event.left_value v, trace_event.binder_call v] := by
      rw [hrun, hv]
      rfl
    refine Or.inl ⟨v, hv, hstart, ?_⟩
    intro g hf hg
    rw [hstart, hf]
    simp only [pure_binder, and_then_returns]
    rcases hg ctx [trace_event.left_value v, trace_event.binder_call v] with
      ⟨v2, h2⟩ | ⟨e, he⟩ | ⟨r, hr⟩
    · exact ⟨channel_call.value (a_to_b (b_to_a v2)), by rw [h2]; rfl⟩
    · exact ⟨channel_call.error e, by rw [he]; rfl⟩
    · exact ⟨channel_call.cancelled r, by rw [hr]; rfl⟩
  · refine Or.inr (Or.inl ⟨e, he, ?_⟩)
    rw [hrun, he]
    rfl
  · refine Or.inr (Or.inr ⟨r, hr, ?_⟩)
    rw [hrun, hr]
    rfl

theorem binder_called_once_in_order_witness :
    fires_once (async_return 1 : async (List (trace_event String Nat Nat)) String Nat) ∧
    ∃ c, invoke_traced id id (async_return 1)
          (pure_binder (fun v => async_return (v + 1))) {}
        = ((completion.returned (),
            [trace_event.left_value 1, trace_event.binder_call 1, trace_event.output c]) :
            completion String Unit × List (trace_event String Nat Nat)) := by
  refine ⟨fires_once_return 1, ?_⟩
  rcases binder_called_once_in_order id id
      (async_return 1 : async (List (trace_event String Nat Nat)) String Nat)
      (fires_once_return 1) (pure_binder (fun v => async_return (v + 1))) {} with
    ⟨v, hv, _, hseq⟩ | ⟨e, he, _⟩ | ⟨r, hr, _⟩
  · have h1 := hv (fun x _ => (completion.returned (), [trace_event.left_value x]))
      (fun _ => effect.returns ()) (fun _ => effect.returns ())
    have hv1 : v = 1 := by
      simp [async_return] at h1
      exact h1.symm
    subst hv1
    exact hseq _ rfl (fires_once_return _)
  · have h1 := he (fun _ _ => (completion.returned (), [trace_event.left_value 0]))
      (fun _ => effect.returns ()) (fun _ => effect.returns ())
    simp [async_return, effect.returns] at h1
  · have h1 := hr (fun _ _ => (completion.returned (), [trace_event.left_value 0]))
      (fun _ => effect.returns ()) (fun _ => effect.returns ())
    simp [async_return, effect.returns] at h1

/-! ## Invoking an object twice -/

/-- The first invocation of an object does what `async_return` and `async_bind`
say of the computation it was constructed as. -/
theorem invoke_object_first {World exception TValue TCapture : Type}
    (moved_from : TValue → TValue) (moved_from_captures : TCapture → TCapture)
    (obj : async_object TValue TCapture) :
    ∀ (ctx : async_context) (ov : rvalue_on_value World exception TValue)
      (oe : on_error World exception) (oc : on_cancelled World exception) (w : World),
      (invoke_object moved_from moved_from_captures obj ctx ov oe oc w).1
        = obj.to_async ctx (fun v w1 => (ov v w1).1) oe oc w := by
  induction obj with
  | return_closure iv =>
    intro ctx ov oe oc w
    rfl
  | bind_closure ia captures ibinder by_value iha ihb =>
    intro ctx ov oe oc w
    simp only [invoke_object, async_object.to_async]
    rw [iha, async_bind_pure_apply]
    simp only [ihb]
    rfl

/-- C15 fails on the code: with `TA = unsigned char` and `TB = unsigned`
(natural numbers, the conversion to `unsigned char` reducing modulo 256 and the
one to `unsigned` keeping the value), the left computation
`async_return ((unsigned char) 1)` and a binder returning `async_return (300u)`,
the caller's `on_value` is called with 44: the value 300 produced by the
computation of `f (v)` went through `TA`. -/
theorem value_converted_through_ta :
    invoke_recorded
        (async_bind id (fun y => y % 256) (async_return 1)
          (pure_binder (fun _ => async_return 300)) :
          async (List (channel_call String Nat)) String Nat) {}
      = (completion.returned (), [channel_call.value 44]) ∧
    invoke_recorded
        (async_bind id (fun y => y % 256) (async_return 1)
          (pure_binder (fun _ => async_return 300)) :
          async (List (channel_call String Nat)) String Nat) {}
      ≠ (completion.returned (), [channel_call.value 300]) := by
  refine ⟨rfl, ?_⟩
  decide

/-- C1 fails on the code at two value types.  With `TA = unsigned char`,
`TB = unsigned`, `a = async_return ((unsigned char) 2)` and
`f = v => async_return (v + 510u)`, invoking `async_bind (a, f)` calls the
caller's `on_value` with 0, while invoking `a` with the value callback that
calls `f (v)` and invokes its computation with the same `ov` calls it with
512. -/
theorem invocation_differs_at_two_types :
    invoke_recorded
        (async_bind id (fun y => y % 256) (async_return 2)
          (pure_binder (fun v => async_return (v + 510))) :
          async (List (channel_call String Nat)) String Nat) {}
      = (completion.returned (), [channel_call.value 0]) ∧
    (async_return 2 : async (List (channel_call String Nat)) String Nat) {}
        (fun v =>
          effect.and_then
            (pure_binder (fun v => async_return (v + 510)) v :
              effect _ _ (async (List (channel_call String Nat)) String Nat))
            (fun b => b {} record_value record_error record_cancelled))
        record_error record_cancelled []
      = (completion.returned (), [channel_call.value 512]) :=
  ⟨rfl, rfl⟩

/-- C3 fails on the code at two value types.  With `TA = unsigned char`,
`TB = unsigned`, `x = 1` and `f = v => async_return (v + 299u)`, invoking
`async_bind (async_return (x), f)` calls `on_value` with 44, while invoking
`f (x)` calls it with 300. -/
theorem left_identity_fails_at_two_types :
    invoke_recorded
        (async_bind id (fun y => y % 256) (async_return 1)
          (pure_binder (fun v => async_return (v + 299))) :
          async (List (channel_call String Nat)) String Nat) {}
      = (completion.returned (), [channel_call.value 44]) ∧
    invoke_recorded
        ((fun v => async_return (v + 299)) 1 :
          async (List (channel_call String Nat)) String Nat) {}
      = (completion.returned (), [channel_call.value 300]) :=
  ⟨rfl, rfl⟩

/-- C5 fails on the code at two value types.  With `TA = unsigned char`,
`TB = TC = unsigned`, `m = async_return ((unsigned char) 1)`,
`f = v => async_return (300u)` and `g = w => async_return (w + 1000u)`, invoking
`async_bind (async_bind (m, f), g)` calls `on_value` with 1044, while invoking
`async_bind (m, x => async_bind (f (x), g))` calls it with 20. -/
theorem associativity_fails_at_two_types :
    invoke_recorded
        (async_bind id id
          (async_bind id (fun y => y % 256) (async_return 1)
            (pure_binder (fun _ => async_return 300)))
          (pure_binder (fun w => async_return (w + 1000))) :
          async (List (channel_call String Nat)) String Nat) {}
      = (completion.returned (), [channel_call.value 1044]) ∧
    invoke_recorded
        (async_bind id (fun y => y % 256) (async_return 1)
          (fun x =>
            effect.and_then (pure_binder (fun _ => async_return 300) x)
              (fun b => effect.returns
                (async_bind id id b (pure_binder (fun w => async_return (w + 1000)))))) :
          async (List (channel_call String Nat)) String Nat) {}
      = (completion.returned (), [channel_call.value 20]) :=
  ⟨rfl, rfl⟩

/-- C12 fails on the code at two value types.  With `TA = unsigned char`,
`TB = unsigned`, `x = 3` and `g = v => v * 100u`, invoking
`async_bind (async_return (x), v => async_return (g (v)))` calls `on_value`
with 44, while `g (x)` is 300. -/
theorem bind_return_misses_value_at_two_types :
    invoke_recorded
        (async_bind id (fun y => y % 256) (async_return 3)
          (pure_binder (fun v => async_return ((fun v => v * 100) v))) :
          async (List (channel_call String Nat)) String Nat) {}
      = (completion.returned (), [channel_call.value 44]) ∧
    (fun v => v * 100) 3 = 300 ∧
    invoke_recorded
        (async_bind id (fun y => y % 256) (async_return 3)
          (pure_binder (fun v => async_return ((fun v => v * 100) v))) :
          async (List (channel_call String Nat)) String Nat) {}
      ≠ (completion.returned (), [channel_call.value ((fun v => v * 100) 3)]) := by
  refine ⟨rfl, rfl, ?_⟩
  decide

/-! ## Chains -/

/-- A chain of binds started from a computation that is one `on_value` call
with `y` is one `on_value` call with the functions applied in turn to `y`. -/
theorem bind_each_value {World exception T : Type} (gs : List (T → T)) :
    ∀ (m : async World exception T) (y : T),
      (∀ ctx ov oe oc, m ctx ov oe oc = ov y) →
      ∀ ctx ov oe oc, bind_each m gs ctx ov oe oc = ov (apply_each y gs) := by
  induction gs with
  | nil =>
    intro m y hm ctx ov oe oc
    exact hm ctx ov oe oc
  | cons g gs ih =>
    intro m y hm ctx ov oe oc
    refine ih (async_bind id id m (pure_binder (fun v => async_return (g v)))) (g y) ?_
      ctx ov oe oc
    intro ctx1 ov1 oe1 oc1
    rw [async_bind_pure_apply, hm]
    rfl

/-- C16: the computation obtained from `async_return (x)` by applying
`async_bind (., v => async_return (g (v)))` for each function of a list in turn
is one call of `on_value` with the functions applied in turn to `x`, whatever
the context and the callbacks; with recording callbacks the log is that single
call; for the empty list the value is `x`. -/
theorem chain_delivers_composition {World exception T : Type} (x : T) (gs : List (T → T)) :
    (∀ (ctx : async_context) (ov : on_value World exception T)
        (oe : on_error World exception) (oc : on_cancelled World exception),
        bind_each (async_return x) gs ctx ov oe oc = ov (apply_each x gs)) ∧
    (∀ ctx : async_context,
        invoke_recorded (bind_each (async_return x) gs : async _ exception T) ctx
          = (completion.returned (), [channel_call.value (apply_each x gs)])) ∧
    apply_each x [] = x := by
  refine ⟨fun ctx ov oe oc => ?_, fun ctx => ?_, rfl⟩
  · exact bind_each_value gs (async_return x) x (fun _ _ _ _ => rfl) ctx ov oe oc
  · unfold invoke_recorded
    rw [bind_each_value gs (async_return x) x (fun _ _ _ _ => rfl)]
    rfl

/-! ## Computations of the core alone -/

/-- A computation built only from `async_return` and `async_bind` is one call
of `on_value`. -/
theorem core_built_value {World exception T : Type} (m : async World exception T)
    (h : core_built m) : ∃ v, ∀ ctx ov oe oc, m ctx ov oe oc = ov v := by
  induction h with
  | ret v => exact ⟨v, fun _ _ _ _ => rfl⟩
  | bind a_to_b b_to_a a g _ _ iha ihg =>
    obtain ⟨va, hva⟩ := iha
    obtain ⟨vb, hvb⟩ := ihg va
    refine ⟨a_to_b (b_to_a vb), fun ctx ov oe oc => ?_⟩
    rw [async_bind_pure_apply, hva, hvb]

/-- C17: one invocation of a computation built only from `async_return` and
`async_bind`, the binders returning such computations, is one call of
`on_value` and nothing else for every context and every triple of callbacks:
with recording callbacks it returns with a log of that single call, `on_error`
and `on_cancelled` not being called. -/
theorem core_fires_value_once {exception T : Type}
    (m : async (List (channel_call exception T)) exception T) (h : core_built m) :
    ∃ v, (∀ ctx ov oe oc, m ctx ov oe oc = ov v) ∧
      ∀ ctx, invoke_recorded m ctx = (completion.returned (), [channel_call.value v]) := by
  obtain ⟨v, hv⟩ := core_built_value m h
  refine ⟨v, hv, fun ctx => ?_⟩
  unfold invoke_recorded
  rw [hv]
  rfl

theorem core_fires_value_once_witness :
    core_built
        (async_bind id id (async_return 2) (pure_binder (fun v => async_return (v * 10))) :
          async (List (channel_call String Nat)) String Nat) ∧
    ∃ v, (∀ ctx ov oe oc,
          (async_bind id id (async_return 2) (pure_binder (fun v => async_return (v * 10))) :
            async (List (channel_call String Nat)) String Nat) ctx ov oe oc = ov v) ∧
      ∀ ctx,
        invoke_recorded
            (async_bind id id (async_return 2)
              (pure_binder (fun v => async_return (v * 10))) :
              async (List (channel_call String Nat)) String Nat) ctx
          = (completion.returned (), [channel_call.value v]) :=
  ⟨core_built.bind id id _ _ (core_built.ret 2) (fun v => core_built.ret (v * 10)),
    core_fires_value_once _
      (core_built.bind id id _ _ (core_built.ret 2) (fun v => core_built.ret (v * 10)))⟩

end cppsync
